import Mathlib

/-!
Verification of the mullvad-rpc connectivity core (mullvad-rpc crate):
the proxy-configuration store (`proxy.rs`), the SNI connector and its
control task (`https_client_with_sni.rs`), the access-token cache
(`access.rs`), and runtime construction with address-cache fallback
(`lib.rs`).  Rust sources are shallowly embedded as pure Lean functions;
network and filesystem effects are represented by explicit oracles,
event traces and association-list state.
-/

/-! ## Basic network data -/

/-- An IPv4 address, four octets. -/
structure IpAddr where
  a : Nat
  b : Nat
  c : Nat
  d : Nat
deriving DecidableEq, Repr

/-- A socket address: IP address plus port (Rust `SocketAddr`). -/
structure SockAddr where
  ip : IpAddr
  port : Nat
deriving DecidableEq, Repr

/-- A filesystem path, modelled as its list of components
(Rust `Path`/`PathBuf`; `join` is list append). -/
abbrev FsPath := List String

/-- Relevant `std::io::ErrorKind` values used by the embedded code. -/
inductive IoErrorKind where
  | invalidInput
  | timedOut
  | notFound
  | other
deriving DecidableEq, Repr

/-! ## proxy.rs: the persisted proxy configuration -/

/-- Modelled from the spec: `ShadowsocksProxySettings` from
`talpid_types::net::openvpn` (its defining file is not in the shown
sources).  The spec describes the single proxy scheme as
password-authenticated with a peer address and a cipher identifier. -/
structure ShadowsocksProxySettings where
  peer : SockAddr
  password : String
  cipher : String
deriving DecidableEq, Repr

/-- Enum `ProxyConfigSettings` of `proxy.rs`: the supported proxy kinds. -/
inductive ProxyConfigSettings where
  | Shadowsocks (settings : ShadowsocksProxySettings)
deriving DecidableEq, Repr

/-- Enum `ProxyConfig` of `proxy.rs`: connect directly over TLS, or via a
proxy. -/
inductive ProxyConfig where
  | Tls
  | Proxied (settings : ProxyConfigSettings)
deriving DecidableEq, Repr

/-- Name of the persisted proxy-config file (`CURRENT_CONFIG_FILENAME`). -/
def CURRENT_CONFIG_FILENAME : String := "api-endpoint.json"

/-- A JSON value, restricted to the constructors the embedded
serialization uses (serde data model). -/
inductive Json where
  | str (s : String)
  | num (n : Nat)
  | obj (fields : List (String × Json))

/-- Serialization of a socket address.  The external serde impl renders a
`SocketAddr` as text; structurally it carries the address and port, which
is what the embedding keeps. -/
def serializeSockAddr (a : SockAddr) : Json :=
  .obj [("a", .num a.ip.a), ("b", .num a.ip.b), ("c", .num a.ip.c),
        ("d", .num a.ip.d), ("port", .num a.port)]

/-- Inverse of `serializeSockAddr`. -/
def deserializeSockAddr : Json → Option SockAddr
  | .obj [("a", .num a), ("b", .num b), ("c", .num c),
          ("d", .num d), ("port", .num p)] =>
    some ⟨⟨a, b, c, d⟩, p⟩
  | _ => none

/-- Serde-derived serialization of `ShadowsocksProxySettings`: a struct
serializes as a map of its fields. -/
def serializeShadowsocks (s : ShadowsocksProxySettings) : Json :=
  .obj [("peer", serializeSockAddr s.peer), ("password", .str s.password),
        ("cipher", .str s.cipher)]

/-- Inverse of `serializeShadowsocks`. -/
def deserializeShadowsocks : Json → Option ShadowsocksProxySettings
  | .obj [("peer", pj), ("password", .str pw), ("cipher", .str ci)] =>
    (deserializeSockAddr pj).map (fun peer => ⟨peer, pw, ci⟩)
  | _ => none

/-- Serde-derived serialization of `ProxyConfig`: externally tagged enum
(a unit variant is its name; a newtype variant is a one-field map). -/
def ProxyConfig.serialize : ProxyConfig → Json
  | .Tls => .str "Tls"
  | .Proxied (.Shadowsocks s) =>
    .obj [("Proxied", .obj [("Shadowsocks", serializeShadowsocks s)])]

/-- Serde-derived deserialization of `ProxyConfig`. -/
def ProxyConfig.deserialize : Json → Option ProxyConfig
  | .str "Tls" => some .Tls
  | .obj [("Proxied", .obj [("Shadowsocks", sj)])] =>
    (deserializeShadowsocks sj).map (fun s => .Proxied (.Shadowsocks s))
  | _ => none

/-- Content of one file: either text that parses as JSON, or text that
does not. -/
inductive FileContent where
  | valid (j : Json)
  | invalid

/-- A filesystem: association list from path to the outcome of reading
that file.  An `Except.error` entry is a file whose read fails with the
given kind; a path with no entry reads as `notFound`. -/
abbrev FileSystem := List (FsPath × Except IoErrorKind FileContent)

/-- Reading a file (`tokio::fs::read_to_string`): first matching entry,
or a `notFound` error when the path has no entry. -/
def fsRead : FileSystem → FsPath → Except IoErrorKind FileContent
  | [], _ => .error .notFound
  | (q, v) :: rest, p => if q = p then v else fsRead rest p

/-- Writing (creating or truncating) a file. -/
def fsWrite (fs : FileSystem) (p : FsPath) (v : Except IoErrorKind FileContent) :
    FileSystem :=
  (p, v) :: fs.filter (fun e => e.1 ≠ p)

/-- Removing a file's entry. -/
def fsRemove (fs : FileSystem) (p : FsPath) : FileSystem :=
  fs.filter (fun e => e.1 ≠ p)

/-- Renaming a file over a destination (`tokio::fs::rename`). -/
def fsRename (fs : FileSystem) (src dst : FsPath) : FileSystem :=
  match fsRead fs src with
  | .ok v => fsWrite (fsRemove fs src) dst (.ok v)
  | .error _ => fs

/-- Path of the persisted proxy config inside a cache directory
(`cache_dir.join(CURRENT_CONFIG_FILENAME)`). -/
def proxyConfigPath (cache_dir : FsPath) : FsPath :=
  cache_dir ++ [CURRENT_CONFIG_FILENAME]

/-- Path of the temporary file used by `ProxyConfig::save`
(`path.with_extension("temp")`). -/
def proxyConfigTempPath (cache_dir : FsPath) : FsPath :=
  cache_dir ++ ["api-endpoint.temp"]

/-- Embedding of `ProxyConfig::from_cache`: read the config file; absence
is `Ok(Tls)`; other read failures propagate; unparsable or
non-conforming content maps to an `Other` error ("deserialization
failed"). -/
def ProxyConfig.from_cache (fs : FileSystem) (cache_dir : FsPath) :
    Except IoErrorKind ProxyConfig :=
  match fsRead fs (proxyConfigPath cache_dir) with
  | .ok (.valid j) =>
    match ProxyConfig.deserialize j with
    | some c => .ok c
    | none => .error .other
  | .ok .invalid => .error .other
  | .error e => if e = .notFound then .ok .Tls else .error e

/-- Embedding of `ProxyConfig::try_from_cache`: total over load outcomes,
logging and substituting `Tls` on any error. -/
def ProxyConfig.try_from_cache (fs : FileSystem) (cache_dir : FsPath) :
    ProxyConfig :=
  match ProxyConfig.from_cache fs cache_dir with
  | .ok c => c
  | .error _ => .Tls

/-- Embedding of `ProxyConfig::save`: write the serialized config to the
temporary path, then rename it over the final path. -/
def ProxyConfig.save (c : ProxyConfig) (fs : FileSystem) (cache_dir : FsPath) :
    FileSystem :=
  let fs1 := fsWrite fs (proxyConfigTempPath cache_dir)
    (.ok (.valid c.serialize))
  fsRename fs1 (proxyConfigTempPath cache_dir) (proxyConfigPath cache_dir)

/-! ## https_client_with_sni.rs: the SNI connector and its control task -/

/-- Modelled from the spec: the set of cipher identifiers recognized by
the external shadowsocks library's `CipherKind::from_str` (the library is
not part of this repository).  The spec's concrete scenario uses
`aes-256-gcm`; any identifier outside the recognized set is a
construction-time error. -/
def recognizedCiphers : List String :=
  ["plain", "none", "aes-128-gcm", "aes-256-gcm", "chacha20-ietf-poly1305"]

/-- Modelled shadowsocks `CipherKind::from_str`: succeeds exactly on
recognized cipher identifiers. -/
def cipherKindFromStr (s : String) : Option String :=
  if recognizedCiphers.contains s then some s else none

/-- Shadowsocks `ServerAddr`: a socket address or a domain name. -/
inductive ServerAddr where
  | SocketAddr (a : SockAddr)
  | DomainName (host : String) (port : Nat)
deriving DecidableEq, Repr

/-- Shadowsocks `ServerConfig` as built by `ServerConfig::new(addr,
password, cipher)`; `external_addr` returns the `addr` field. -/
structure ServerConfig where
  addr : ServerAddr
  password : String
  method : String
deriving DecidableEq, Repr

/-- External address of a shadowsocks server config. -/
def ServerConfig.external_addr (c : ServerConfig) : ServerAddr := c.addr

/-- Modelled from the spec: `ApiConnectionMode`, the requested connection
mode passed over the control channel.  Its defining file is not in the
shown sources; its shape is fixed by the `TryFrom` impl in
`https_client_with_sni.rs`, which matches `ApiConnectionMode::Direct` and
`ApiConnectionMode::Proxied(ProxyConfig::Shadowsocks(config))` with
fields `peer`, `password` and `cipher`. -/
inductive ApiConnectionMode where
  | Direct
  | Proxied (settings : ProxyConfigSettings)
deriving DecidableEq, Repr

/-- Enum `InnerProxyConfig` of `https_client_with_sni.rs`. -/
inductive InnerProxyConfig where
  | Direct
  | Proxied (config : ServerConfig)
deriving DecidableEq, Repr

/-- Error enum `ProxyConfigError` of `https_client_with_sni.rs`. -/
inductive ProxyConfigError where
  | InvalidCipher (cipher : String)
deriving DecidableEq, Repr

/-- Embedding of `impl TryFrom<ApiConnectionMode> for InnerProxyConfig`:
build a shadowsocks server config, failing on an unrecognized cipher. -/
def InnerProxyConfig.try_from (config : ApiConnectionMode) :
    Except ProxyConfigError InnerProxyConfig :=
  match config with
  | .Direct => .ok .Direct
  | .Proxied (.Shadowsocks c) =>
    match cipherKindFromStr c.cipher with
    | some kind => .ok (.Proxied ⟨.SocketAddr c.peer, c.password, kind⟩)
    | none => .error (.InvalidCipher c.cipher)

/-- Enum `HttpsConnectorRequest`: the two control messages. -/
inductive HttpsConnectorRequest where
  | Reset
  | SetProxy (config : ApiConnectionMode)
deriving DecidableEq, Repr

/-- The `HttpsConnectorWithSniInner` state guarded by the mutex: the
registry of issued stream handles (as handle ids) and the active proxy
configuration. -/
structure HttpsConnectorWithSniInner where
  stream_handles : List Nat
  proxy_config : InnerProxyConfig

/-- Whole-connector state for the control task.  `closed` holds the ids
of streams whose abort handle has been closed (modelled from the spec:
`AbortableStreamHandle.close()` is idempotent and `is_closed()` queries a
shared flag; `abortable_stream.rs` is not in the shown sources), and
`notify_count` counts `notify_waiters()` broadcasts on the shared
cancellation notification — each increment wakes every waiting
connection attempt. -/
structure ConnectorState where
  inner : HttpsConnectorWithSniInner
  closed : List Nat
  notify_count : Nat

/-- Boolean membership in a list of handle ids. -/
def memNat : List Nat → Nat → Bool
  | [], _ => false
  | x :: xs, h => if x = h then true else memNat xs h

/-- Whether a stream handle reports closed (`is_closed()`). -/
def isClosed (st : ConnectorState) (h : Nat) : Bool :=
  memNat st.closed h

/-- Closing one stream handle (`close()`), idempotent. -/
def closeHandle (st : ConnectorState) (h : Nat) : ConnectorState :=
  if isClosed st h then st else { st with closed := h :: st.closed }

/-- Embedding of one iteration of the control task spawned in
`HttpsConnectorWithSni::new`: under the lock, a `SetProxy` request whose
configuration parses replaces the active configuration (a parse failure
is logged and changes nothing); the handle registry is taken and
emptied; then, outside the lock, every taken handle is closed and the
cancellation notification is broadcast. -/
def processRequest (st : ConnectorState) (request : HttpsConnectorRequest) :
    ConnectorState :=
  let inner1 : HttpsConnectorWithSniInner :=
    match request with
    | .SetProxy config =>
      match InnerProxyConfig.try_from config with
      | .ok c => { st.inner with proxy_config := c }
      | .error _ => st.inner
    | .Reset => st.inner
  let handles := inner1.stream_handles
  let st1 : ConnectorState :=
    { st with inner := { inner1 with stream_handles := [] } }
  let st2 := handles.foldl closeHandle st1
  { st2 with notify_count := st2.notify_count + 1 }

/-- Embedding of the registration step at the end of a successful
`call` (prune handles that already report closed, then push the new
one). -/
def registerHandle (st : ConnectorState) (h : Nat) : ConnectorState :=
  { st with inner := { st.inner with stream_handles :=
      (st.inner.stream_handles.filter (fun x => !(isClosed st x))) ++ [h] } }

/-! ### The connection attempt as an event trace -/

/-- Observable network actions of one `call`. -/
inductive NetEvent where
  | dnsLookup (host : String)
  | tcpConnect (addr : SockAddr)
  | proxyHandshake (target : SockAddr)
  | tlsHandshake (sni : String)
deriving DecidableEq, Repr

/-- Result stream of a successful attempt (`MaybeProxyStream`). -/
inductive MaybeProxyStream where
  | Tls
  | Proxied
deriving DecidableEq, Repr

/-- Oracle fixing the environment-dependent outcomes of one `call`:
IP-literal parsing of the host text, hostname well-formedness
(`Name::from_str`), DNS resolution (`none` is a resolver failure, an
empty list an empty response), TCP connect (`open_socket`; `none` is
success within the timeout) and the TLS handshake keyed by SNI
hostname. -/
structure NetOracle where
  parseIp : String → Option IpAddr
  nameValid : String → Bool
  dns : String → Option (List IpAddr)
  tcp : SockAddr → Option IoErrorKind
  tls : String → Option IoErrorKind

/-- A URI as the connector inspects it: scheme, host text and optional
port. -/
structure Uri where
  scheme : Option String
  host : Option String
  port : Option Nat
deriving DecidableEq, Repr

/-- Embedding of `HttpsConnectorWithSni::resolve_address`: error on a
missing host; default port 443; an IP-literal host is used directly
without DNS; otherwise the hostname is validated and looked up, failing
on resolver errors and empty responses.  Returns the network events
performed alongside the outcome. -/
def resolve_address (o : NetOracle) (uri : Uri) :
    List NetEvent × Except IoErrorKind SockAddr :=
  match uri.host with
  | none => ([], .error .invalidInput)
  | some hostname =>
    let port := uri.port.getD 443
    match o.parseIp hostname with
    | some addr => ([], .ok ⟨addr, port⟩)
    | none =>
      if o.nameValid hostname then
        match o.dns hostname with
        | none => ([.dnsLookup hostname], .error .other)
        | some [] => ([.dnsLookup hostname], .error .other)
        | some (addr :: _) => ([.dnsLookup hostname], .ok ⟨addr, port⟩)
      else ([], .error .invalidInput)

/-- One connection attempt (the `stream_fut` of `call`) under a
snapshotted configuration: `Direct` opens a TCP socket to the resolved
address and performs the TLS handshake with the SNI hostname; `Proxied`
requires the proxy's external address to be a socket address, opens a TCP
socket to it, builds the proxy connect-forwarding stream toward the
resolved target address, and performs the same TLS handshake over it. -/
def connectionAttempt (config : InnerProxyConfig) (addr : SockAddr)
    (hostname : String) (o : NetOracle) :
    List NetEvent × Except IoErrorKind MaybeProxyStream :=
  match config with
  | .Direct =>
    match o.tcp addr with
    | some e => ([.tcpConnect addr], .error e)
    | none =>
      match o.tls hostname with
      | some e => ([.tcpConnect addr, .tlsHandshake hostname], .error e)
      | none => ([.tcpConnect addr, .tlsHandshake hostname], .ok .Tls)
  | .Proxied proxy_config =>
    match proxy_config.external_addr with
    | .DomainName _ _ => ([], .error .invalidInput)
    | .SocketAddr proxy_addr =>
      match o.tcp proxy_addr with
      | some e => ([.tcpConnect proxy_addr], .error e)
      | none =>
        match o.tls hostname with
        | some e =>
          ([.tcpConnect proxy_addr, .proxyHandshake addr,
            .tlsHandshake hostname], .error e)
        | none =>
          ([.tcpConnect proxy_addr, .proxyHandshake addr,
            .tlsHandshake hostname], .ok .Proxied)

/-- The SNI hostname used for the handshake: the configured override if
set, otherwise the URI's own host
(`self.sni_hostname.clone().or_else(|| uri.host())`). -/
def hostnameOf (sni_hostname : Option String) (uri : Uri) : Option String :=
  sni_hostname <|> uri.host

/-- Embedding of `HttpsConnectorWithSni::call` for one attempt under the
snapshotted configuration `config`: reject non-HTTPS URIs, require an SNI
hostname, resolve the target address, then run the connection attempt.
The cancellation race of the retry loop re-runs exactly this attempt
with a fresh snapshot, so one attempt is the unit embedded here. -/
def call (sni_hostname : Option String) (config : InnerProxyConfig)
    (o : NetOracle) (uri : Uri) :
    List NetEvent × Except IoErrorKind MaybeProxyStream :=
  if uri.scheme ≠ some "https" then ([], .error .invalidInput)
  else
    match hostnameOf sni_hostname uri with
    | none => ([], .error .invalidInput)
    | some hostname =>
      match resolve_address o uri with
      | (evs, .error e) => (evs, .error e)
      | (evs, .ok addr) =>
        let (evs2, res) := connectionAttempt config addr hostname o
        (evs ++ evs2, res)

/-! ## access.rs: the access-token cache -/

/-- Modelled from the spec: `AccessTokenData` from
`mullvad_types::account` (its defining file is not in the shown
sources): an access token together with its expiry instant.  Time is an
abstract instant counter. -/
structure AccessTokenData where
  access_token : String
  expiry : Nat
deriving DecidableEq, Repr

/-- Modelled from the spec: `AccessTokenData::is_expired` — a token is
not used once its expiry is at or before the current instant. -/
def AccessTokenData.is_expired (d : AccessTokenData) (now : Nat) : Bool :=
  d.expiry ≤ now

/-- Errors of the REST layer as `get_token` distinguishes them. -/
inductive RestError where
  | ApiError (status : Nat)
  | Other
deriving DecidableEq, Repr

/-- The `access_from_account` map of `AccessTokenProxy`, an account-token
keyed map embedded as an association list. -/
structure AccessTokenProxyState where
  access_from_account : List (String × AccessTokenData)

/-- Map lookup (`HashMap::get`). -/
def lookupToken : List (String × AccessTokenData) → String →
    Option AccessTokenData
  | [], _ => none
  | (a, d) :: rest, account =>
    if a = account then some d else lookupToken rest account

/-- Map insert (`HashMap::insert`): the new entry replaces any prior
entry for the account. -/
def insertToken (st : AccessTokenProxyState) (account : String)
    (d : AccessTokenData) : AccessTokenProxyState :=
  ⟨(account, d) :: st.access_from_account.filter (fun p => p.1 ≠ account)⟩

/-- Embedding of `AccessTokenProxy::request_new_token`: fetch from the
API (outcome given by the `fetch` oracle); on success store the new data
for the account and return its token; on failure propagate the error.
The third component counts fetches performed. -/
def request_new_token (st : AccessTokenProxyState)
    (fetch : String → Except RestError AccessTokenData) (account : String) :
    Except RestError String × AccessTokenProxyState × Nat :=
  match fetch account with
  | .ok data => (.ok data.access_token, insertToken st account data, 1)
  | .error e => (.error e, st, 1)

/-- Embedding of `AccessTokenProxy::get_token`: return the cached token
when one exists and is unexpired; fetch a new one when the cached entry
is expired or absent. -/
def get_token (st : AccessTokenProxyState) (now : Nat)
    (fetch : String → Except RestError AccessTokenData) (account : String) :
    Except RestError String × AccessTokenProxyState × Nat :=
  match lookupToken st.access_from_account account with
  | some access_token =>
    if access_token.is_expired now then
      request_new_token st fetch account
    else
      (.ok access_token.access_token, st, 0)
  | none => request_new_token st fetch account

/-! ## lib.rs: runtime construction with address-cache fallback -/

/-- Name of the persisted address-cache file (`API_IP_CACHE_FILENAME`). -/
def API_IP_CACHE_FILENAME : String := "api-ip-address.txt"

/-- An address cache value; its contents are opaque to `with_cache`. -/
structure AddressCache where
  id : Nat
deriving DecidableEq, Repr

/-- An `address_cache::Error` value, distinguished by a code. -/
structure AddressCacheError where
  code : Nat
deriving DecidableEq, Repr

/-- Error enum of `lib.rs` (`mullvad_rpc::Error`). -/
inductive RpcError where
  | RestError
  | AddressCacheError (e : AddressCacheError)
  | ApiCheckError
deriving DecidableEq, Repr

/-- Modelled from the spec: the operations of the `address_cache` module
used by `MullvadRpcRuntime` (`address_cache.rs` is not in the shown
sources).  `from_file` loads persisted entries from a path with an
optional write-back path; `randomize` reorders entries; `new` builds a
cache from an explicit address list. -/
structure AddressCacheEnv where
  from_file : FsPath → Option FsPath → Except AddressCacheError AddressCache
  randomize : AddressCache → Except AddressCacheError AddressCache
  new : List SockAddr → Option FsPath → Except AddressCacheError AddressCache

/-- The process-wide API endpoint (`ApiEndpoint`): hostname, address and
whether address-cache use is administratively disabled. -/
structure ApiEndpoint where
  host : String
  addr : SockAddr
  disable_address_cache : Bool

/-- The runtime as far as construction is concerned: the address cache
it ends up holding. -/
structure MullvadRpcRuntime where
  address_cache : AddressCache
deriving DecidableEq, Repr

/-- Embedding of `MullvadRpcRuntime::new_inner`: build a static cache
from the endpoint address. -/
def new_inner (env : AddressCacheEnv) (api : ApiEndpoint) :
    Except RpcError MullvadRpcRuntime :=
  match env.new [api.addr] none with
  | .ok cache => .ok ⟨cache⟩
  | .error e => .error (.AddressCacheError e)

/-- The optional write-back path for the address cache
(`write_changes` selects the cache file). -/
def writeFileOf (write_changes : Bool) (cache_file : FsPath) : Option FsPath :=
  if write_changes then some cache_file else none

/-- Embedding of `MullvadRpcRuntime::with_cache`: when address-cache use
is disabled, construct statically; otherwise load the working-directory
cache file, and on failure fall back to the bundled resource-directory
copy, randomized — erroring with the original address-cache error when
no resource directory is provided, and with the fallback's error when
the fallback itself fails. -/
def with_cache (env : AddressCacheEnv) (api : ApiEndpoint)
    (resource_dir : Option FsPath) (cache_dir : FsPath)
    (write_changes : Bool) : Except RpcError MullvadRpcRuntime :=
  if api.disable_address_cache then new_inner env api
  else
    let cache_file := cache_dir ++ [API_IP_CACHE_FILENAME]
    let write_file := writeFileOf write_changes cache_file
    match env.from_file cache_file write_file with
    | .ok cache => .ok ⟨cache⟩
    | .error e =>
      match resource_dir with
      | some rdir =>
        let read_file := rdir ++ [API_IP_CACHE_FILENAME]
        match env.from_file read_file write_file with
        | .ok cache =>
          match env.randomize cache with
          | .ok cache2 => .ok ⟨cache2⟩
          | .error e2 => .error (.AddressCacheError e2)
        | .error e2 => .error (.AddressCacheError e2)
      | none => .error (.AddressCacheError e)

/-! ## Concrete inputs used by the witness theorems -/

/-- A filesystem whose proxy-config file exists but holds text that is
not valid JSON. -/
def corruptFs : FileSystem :=
  [(["cache", "api-endpoint.json"], .ok .invalid)]

/-- A filesystem whose proxy-config file exists but cannot be read
(read fails with a non-NotFound error). -/
def unreadableFs : FileSystem :=
  [(["cache", "api-endpoint.json"], .error .other)]

/-- A `SetProxy` payload with an unrecognized cipher identifier. -/
def badCipherMode : ApiConnectionMode :=
  .Proxied (.Shadowsocks ⟨⟨⟨203, 0, 113, 9⟩, 8388⟩, "p", "bogus-cipher"⟩)

/-- A token-cache state with one entry for account `acct`: token `tokA`
expiring at instant 10. -/
def exTokenState : AccessTokenProxyState := ⟨[("acct", ⟨"tokA", 10⟩)]⟩

/-- A fetch oracle that always returns token `tokB` expiring at 20. -/
def exFetch : String → Except RestError AccessTokenData :=
  fun _ => .ok ⟨"tokB", 20⟩

/-- The oracle of the spec's concrete scenario: `example.test` is not an
IP literal and resolves to 203.0.113.5; TCP and TLS succeed. -/
def exOracle : NetOracle where
  parseIp := fun _ => none
  nameValid := fun _ => true
  dns := fun s => if s = "example.test" then some [⟨203, 0, 113, 5⟩] else none
  tcp := fun _ => none
  tls := fun _ => none

/-- The URI `https://example.test` (no explicit port). -/
def exUri : Uri := ⟨some "https", some "example.test", none⟩

/-- The proxied snapshot of the spec's concrete scenario: shadowsocks
peer 203.0.113.9:8388, password `p`, cipher `aes-256-gcm`. -/
def exProxiedConfig : ServerConfig :=
  ⟨.SocketAddr ⟨⟨203, 0, 113, 9⟩, 8388⟩, "p", "aes-256-gcm"⟩

/-- An address-cache environment for the C8 scenario: the cache-directory
file fails to load with error code 7, the resource-directory copy loads
as cache 1, and randomizing yields cache 101. -/
def exCacheEnv : AddressCacheEnv where
  from_file := fun p _ =>
    if p = ["cache", "api-ip-address.txt"] then .error ⟨7⟩ else .ok ⟨1⟩
  randomize := fun c => .ok ⟨c.id + 100⟩
  new := fun _ _ => .ok ⟨0⟩

/-- The default API endpoint with address-cache use enabled. -/
def exApiEndpoint : ApiEndpoint :=
  ⟨"api.mullvad.net", ⟨⟨193, 138, 218, 78⟩, 443⟩, false⟩

/-! ## Helper lemmas -/

/-- Serialization of a proxy config deserializes back to it. -/
theorem deserialize_serialize (c : ProxyConfig) :
    ProxyConfig.deserialize c.serialize = some c := by
  match c with
  | .Tls => rfl
  | .Proxied (.Shadowsocks s) =>
    simp [ProxyConfig.serialize, ProxyConfig.deserialize,
      serializeShadowsocks, deserializeShadowsocks,
      serializeSockAddr, deserializeSockAddr]

/-- Reading a path just written returns the written content. -/
theorem fsRead_fsWrite_self (fs : FileSystem) (p : FsPath)
    (v : Except IoErrorKind FileContent) : fsRead (fsWrite fs p v) p = v := by
  simp [fsRead, fsWrite]

/-- After a save, the config file holds the serialized config. -/
theorem fsRead_save (c : ProxyConfig) (fs : FileSystem) (cache_dir : FsPath) :
    fsRead (ProxyConfig.save c fs cache_dir) (proxyConfigPath cache_dir) =
      .ok (.valid c.serialize) := by
  simp [ProxyConfig.save, fsRename, fsRead_fsWrite_self]

/-- Membership in a handle list survives a cons. -/
theorem memNat_cons_of (xs : List Nat) (x h : Nat)
    (hc : memNat xs h = true) : memNat (x :: xs) h = true := by
  unfold memNat
  rw [hc]
  split <;> rfl

/-- A handle is a member of any list it heads. -/
theorem memNat_cons_self (xs : List Nat) (h : Nat) :
    memNat (h :: xs) h = true := by
  simp [memNat]

/-- Closing a handle makes it report closed. -/
theorem isClosed_closeHandle_self (st : ConnectorState) (h : Nat) :
    isClosed (closeHandle st h) h = true := by
  unfold closeHandle
  by_cases hc : isClosed st h = true
  · rw [if_pos hc]; exact hc
  · rw [if_neg hc]; exact memNat_cons_self _ _

/-- Closing one handle keeps every already-closed handle closed. -/
theorem isClosed_closeHandle_mono (st : ConnectorState) (h h' : Nat)
    (hc : isClosed st h = true) : isClosed (closeHandle st h') h = true := by
  unfold closeHandle
  by_cases hc' : isClosed st h' = true
  · rw [if_pos hc']; exact hc
  · rw [if_neg hc']; exact memNat_cons_of _ _ _ hc

/-- Closing a handle does not touch the registry or configuration. -/
theorem closeHandle_inner (st : ConnectorState) (h : Nat) :
    (closeHandle st h).inner = st.inner := by
  unfold closeHandle; split <;> rfl

/-- Closing a handle does not touch the notification counter. -/
theorem closeHandle_notify (st : ConnectorState) (h : Nat) :
    (closeHandle st h).notify_count = st.notify_count := by
  unfold closeHandle; split <;> rfl

/-- Folding closes over a list keeps closed handles closed. -/
theorem foldl_closeHandle_mono (l : List Nat) (st : ConnectorState) (h : Nat)
    (hc : isClosed st h = true) :
    isClosed (l.foldl closeHandle st) h = true := by
  induction l generalizing st with
  | nil => exact hc
  | cons x xs ih => exact ih _ (isClosed_closeHandle_mono _ _ _ hc)

/-- Folding closes over a list closes every member of the list. -/
theorem foldl_closeHandle_mem (l : List Nat) (st : ConnectorState) (h : Nat)
    (hmem : h ∈ l) : isClosed (l.foldl closeHandle st) h = true := by
  induction l generalizing st with
  | nil => cases hmem
  | cons x xs ih =>
    rcases List.mem_cons.mp hmem with hx | hxs
    · subst hx
      exact foldl_closeHandle_mono xs (closeHandle st h) h
        (isClosed_closeHandle_self st h)
    · exact ih _ hxs

/-- Folding closes does not touch the registry or configuration. -/
theorem foldl_closeHandle_inner (l : List Nat) (st : ConnectorState) :
    (l.foldl closeHandle st).inner = st.inner := by
  induction l generalizing st with
  | nil => rfl
  | cons x xs ih => rw [List.foldl_cons, ih, closeHandle_inner]

/-- Folding closes does not touch the notification counter. -/
theorem foldl_closeHandle_notify (l : List Nat) (st : ConnectorState) :
    (l.foldl closeHandle st).notify_count = st.notify_count := by
  induction l generalizing st with
  | nil => rfl
  | cons x xs ih => rw [List.foldl_cons, ih, closeHandle_notify]

/-- Looking up an account just inserted returns the inserted data. -/
theorem lookupToken_insertToken_self (st : AccessTokenProxyState)
    (account : String) (d : AccessTokenData) :
    lookupToken (insertToken st account d).access_from_account account
      = some d := by
  simp [insertToken, lookupToken]

/-! ## Claim theorems: persistence of the proxy configuration -/

/-- C5: for every ProxyConfig value (direct or proxied), saving it to a
cache directory and then loading from that directory yields the original
value. -/
theorem proxy_config_save_load_roundtrip (c : ProxyConfig) (fs : FileSystem)
    (cache_dir : FsPath) :
    ProxyConfig.from_cache (ProxyConfig.save c fs cache_dir) cache_dir
      = .ok c := by
  simp [ProxyConfig.from_cache, fsRead_save, deserialize_serialize]

/-- C6: loading the persisted proxy configuration from a cache directory
whose config file does not exist succeeds with the direct (unproxied)
configuration `Tls`. -/
theorem from_cache_missing_file (fs : FileSystem) (cache_dir : FsPath)
    (h : fsRead fs (proxyConfigPath cache_dir) = .error .notFound) :
    ProxyConfig.from_cache fs cache_dir = .ok .Tls := by
  simp [ProxyConfig.from_cache, h]

/-- Witness for C6: loading from an empty filesystem (the file is
absent) yields `Tls`. -/
theorem from_cache_missing_file_witness :
    ProxyConfig.from_cache [] ["cache"] = .ok .Tls :=
  from_cache_missing_file [] ["cache"] rfl

/-- C10: `try_from_cache` is total over load outcomes — every load error
(corrupt content, unreadable file, absence handled inside `from_cache`)
maps to the direct configuration `Tls`, and every successful load is
returned unchanged. -/
theorem try_from_cache_total (fs : FileSystem) (cache_dir : FsPath) :
    (∀ e, ProxyConfig.from_cache fs cache_dir = .error e →
      ProxyConfig.try_from_cache fs cache_dir = .Tls)
    ∧ (∀ c, ProxyConfig.from_cache fs cache_dir = .ok c →
      ProxyConfig.try_from_cache fs cache_dir = c) := by
  constructor
  · intro e h; simp [ProxyConfig.try_from_cache, h]
  · intro c h; simp [ProxyConfig.try_from_cache, h]

/-- Witness for C10: a corrupt file and an unreadable file both load as
`Tls` through `try_from_cache`. -/
theorem try_from_cache_total_witness :
    ProxyConfig.try_from_cache corruptFs ["cache"] = .Tls
    ∧ ProxyConfig.try_from_cache unreadableFs ["cache"] = .Tls :=
  ⟨(try_from_cache_total corruptFs ["cache"]).1 .other rfl,
   (try_from_cache_total unreadableFs ["cache"]).1 .other rfl⟩

/-! ## Claim theorems: the control task -/

/-- C2: after the control task processes a `SetProxy` or `Reset` message,
every stream handle registered in the shared registry before the message
reports closed, and the registry is left empty. -/
theorem processRequest_closes_previous (st : ConnectorState)
    (req : HttpsConnectorRequest) (h : Nat)
    (hmem : h ∈ st.inner.stream_handles) :
    isClosed (processRequest st req) h = true
    ∧ (processRequest st req).inner.stream_handles = [] := by
  cases req with
  | Reset =>
    refine ⟨?_, ?_⟩
    · exact foldl_closeHandle_mem _ _ _ hmem
    · simp only [processRequest]
      rw [foldl_closeHandle_inner]
  | SetProxy config =>
    cases htf : InnerProxyConfig.try_from config with
    | ok c =>
      refine ⟨?_, ?_⟩ <;> simp only [processRequest, htf]
      · exact foldl_closeHandle_mem _ _ _ hmem
      · rw [foldl_closeHandle_inner]
    | error e =>
      refine ⟨?_, ?_⟩ <;> simp only [processRequest, htf]
      · exact foldl_closeHandle_mem _ _ _ hmem
      · rw [foldl_closeHandle_inner]

/-- Witness for C2: in a state with registered handles 1 and 2, a
`Reset` closes handle 1 and empties the registry. -/
theorem processRequest_closes_previous_witness :
    isClosed (processRequest ⟨⟨[1, 2], .Direct⟩, [], 0⟩ .Reset) 1 = true
    ∧ (processRequest ⟨⟨[1, 2], .Direct⟩, [], 0⟩
        .Reset).inner.stream_handles = [] :=
  processRequest_closes_previous ⟨⟨[1, 2], .Direct⟩, [], 0⟩ .Reset 1
    (by decide)

/-- C3: a `SetProxy` request whose configuration fails to parse (an
unrecognized cipher) leaves the active proxy configuration exactly as it
was. -/
theorem processRequest_invalid_setproxy_keeps_config (st : ConnectorState)
    (config : ApiConnectionMode) (e : ProxyConfigError)
    (herr : InnerProxyConfig.try_from config = .error e) :
    (processRequest st (.SetProxy config)).inner.proxy_config
      = st.inner.proxy_config := by
  simp only [processRequest, herr]
  rw [foldl_closeHandle_inner]

/-- Witness for C3: a concrete invalid `SetProxy` leaves a `Direct`
configuration in place. -/
theorem processRequest_invalid_setproxy_keeps_config_witness :
    (processRequest ⟨⟨[4], .Direct⟩, [], 0⟩
        (.SetProxy badCipherMode)).inner.proxy_config = .Direct :=
  processRequest_invalid_setproxy_keeps_config ⟨⟨[4], .Direct⟩, [], 0⟩
    badCipherMode (.InvalidCipher "bogus-cipher") rfl

/-- C9: processing any control message — a `Reset`, a parsing
`SetProxy`, or a `SetProxy` whose configuration fails to parse — empties
the registry, closes every previously registered handle, and broadcasts
the cancellation notification (waking all waiting attempts); a failed
`SetProxy` is not a pure no-op. -/
theorem processRequest_always_sweeps (st : ConnectorState)
    (req : HttpsConnectorRequest) :
    (processRequest st req).inner.stream_handles = []
    ∧ (∀ h ∈ st.inner.stream_handles,
        isClosed (processRequest st req) h = true)
    ∧ (processRequest st req).notify_count = st.notify_count + 1 := by
  have empties : ∀ inner1 : HttpsConnectorWithSniInner,
      ((inner1.stream_handles.foldl closeHandle
        { st with inner :=
          { inner1 with stream_handles := [] } }).inner.stream_handles) = [] :=
    fun inner1 => by rw [foldl_closeHandle_inner]
  cases req with
  | Reset =>
    refine ⟨empties st.inner, fun h hmem => ?_, ?_⟩
    · exact foldl_closeHandle_mem _ _ _ hmem
    · simp only [processRequest]
      rw [foldl_closeHandle_notify]
  | SetProxy config =>
    cases htf : InnerProxyConfig.try_from config with
    | ok c =>
      refine ⟨?_, fun h hmem => ?_, ?_⟩ <;> simp only [processRequest, htf]
      · rw [foldl_closeHandle_inner]
      · exact foldl_closeHandle_mem _ _ _ hmem
      · rw [foldl_closeHandle_notify]
    | error e =>
      refine ⟨?_, fun h hmem => ?_, ?_⟩ <;> simp only [processRequest, htf]
      · rw [foldl_closeHandle_inner]
      · exact foldl_closeHandle_mem _ _ _ hmem
      · rw [foldl_closeHandle_notify]

/-- Witness for C9: a `SetProxy` with an unrecognized cipher still
empties the registry, closes the registered handle 7, and bumps the
notification broadcast counter. -/
theorem processRequest_always_sweeps_witness :
    (processRequest ⟨⟨[7], .Direct⟩, [], 3⟩
        (.SetProxy badCipherMode)).inner.stream_handles = []
    ∧ isClosed (processRequest ⟨⟨[7], .Direct⟩, [], 3⟩
        (.SetProxy badCipherMode)) 7 = true
    ∧ (processRequest ⟨⟨[7], .Direct⟩, [], 3⟩
        (.SetProxy badCipherMode)).notify_count = 4 :=
  ⟨(processRequest_always_sweeps ⟨⟨[7], .Direct⟩, [], 3⟩
      (.SetProxy badCipherMode)).1,
   (processRequest_always_sweeps ⟨⟨[7], .Direct⟩, [], 3⟩
      (.SetProxy badCipherMode)).2.1 7 (by decide),
   (processRequest_always_sweeps ⟨⟨[7], .Direct⟩, [], 3⟩
      (.SetProxy badCipherMode)).2.2⟩

/-! ## Claim theorems: the access-token cache -/

/-- C4: with a cached entry for the account, `get_token` returns the
cached token without fetching (and leaves the state unchanged, so an
immediately repeated call returns the same token) when the entry is
unexpired; when the entry's expiry has passed it is never returned —
exactly one fetch is performed and, on fetch success, the fetched token
is returned and its entry overwrites the prior cached entry. -/
theorem get_token_cache_behaviour (st : AccessTokenProxyState) (now : Nat)
    (fetch : String → Except RestError AccessTokenData) (account : String)
    (d : AccessTokenData)
    (hlook : lookupToken st.access_from_account account = some d) :
    (d.is_expired now = false →
      get_token st now fetch account = (.ok d.access_token, st, 0)
      ∧ get_token st now fetch account
          = get_token (get_token st now fetch account).2.1 now fetch account)
    ∧ (d.is_expired now = true →
      (get_token st now fetch account).2.2 = 1
      ∧ ∀ data, fetch account = .ok data →
        get_token st now fetch account
          = (.ok data.access_token, insertToken st account data, 1)
        ∧ lookupToken
            (insertToken st account data).access_from_account account
          = some data) := by
  constructor
  · intro hfresh
    have heq : get_token st now fetch account = (.ok d.access_token, st, 0) := by
      simp [get_token, hlook, hfresh]
    exact ⟨heq, by rw [heq]; exact heq.symm⟩
  · intro hexp
    have heq : get_token st now fetch account
        = request_new_token st fetch account := by
      simp [get_token, hlook, hexp]
    constructor
    · rw [heq]
      unfold request_new_token
      cases fetch account <;> rfl
    · intro data hdata
      rw [heq]
      unfold request_new_token
      rw [hdata]
      exact ⟨rfl, lookupToken_insertToken_self st account data⟩

/-- Witness for C4: at instant 0 the cached token is returned with no
fetch; at instant 10 (expiry passed) one fetch happens, the fetched
token is returned, and its entry overwrites the cache. -/
theorem get_token_cache_behaviour_witness :
    (get_token exTokenState 0 exFetch "acct" = (.ok "tokA", exTokenState, 0))
    ∧ (get_token exTokenState 10 exFetch "acct"
        = (.ok "tokB", insertToken exTokenState "acct" ⟨"tokB", 20⟩, 1)) :=
  ⟨((get_token_cache_behaviour exTokenState 0 exFetch "acct" ⟨"tokA", 10⟩
      rfl).1 (by decide)).1,
   (((get_token_cache_behaviour exTokenState 10 exFetch "acct" ⟨"tokA", 10⟩
      rfl).2 (by decide)).2 ⟨"tokB", 20⟩ rfl).1⟩

/-! ## Claim theorems: the connector's call operation -/

/-- C1: a connection attempt made by `call` under a `Direct` snapshot
opens a TCP socket to the resolved target address and then performs the
TLS handshake with the SNI hostname (the operator override if set,
otherwise the URI host); under a `Proxied` snapshot it opens a TCP
socket to the proxy's peer address, performs the proxy
connect-forwarding handshake toward the resolved target address, and
then performs the same TLS/SNI handshake over the tunnel. -/
theorem call_attempt_traces (o : NetOracle) (sni_hostname : Option String)
    (uri : Uri) (hostname : String) (addr : SockAddr) (evs : List NetEvent)
    (hscheme : uri.scheme = some "https")
    (hhost : hostnameOf sni_hostname uri = some hostname)
    (hres : resolve_address o uri = (evs, .ok addr))
    (htls : o.tls hostname = none) :
    (o.tcp addr = none →
      call sni_hostname .Direct o uri
        = (evs ++ [.tcpConnect addr, .tlsHandshake hostname], .ok .Tls))
    ∧ (∀ (cfg : ServerConfig) (peer : SockAddr),
        cfg.external_addr = .SocketAddr peer → o.tcp peer = none →
        call sni_hostname (.Proxied cfg) o uri
          = (evs ++ [.tcpConnect peer, .proxyHandshake addr,
              .tlsHandshake hostname], .ok .Proxied)) := by
  constructor
  · intro htcp
    simp [call, hscheme, hhost, hres, connectionAttempt, htcp, htls]
  · intro cfg peer hpeer htcp
    simp [call, hscheme, hhost, hres, connectionAttempt, hpeer, htcp, htls]

/-- Witness for C1: the spec's concrete scenario.  Direct: DNS lookup,
TCP connect to 203.0.113.5:443, TLS with SNI `example.test`.  Proxied:
TCP connect to 203.0.113.9:8388, proxy handshake toward 203.0.113.5:443,
then the same TLS/SNI step. -/
theorem call_attempt_traces_witness :
    call none .Direct exOracle exUri
      = ([.dnsLookup "example.test",
          .tcpConnect ⟨⟨203, 0, 113, 5⟩, 443⟩,
          .tlsHandshake "example.test"], .ok .Tls)
    ∧ call none (.Proxied exProxiedConfig) exOracle exUri
      = ([.dnsLookup "example.test",
          .tcpConnect ⟨⟨203, 0, 113, 9⟩, 8388⟩,
          .proxyHandshake ⟨⟨203, 0, 113, 5⟩, 443⟩,
          .tlsHandshake "example.test"], .ok .Proxied) :=
  ⟨(call_attempt_traces exOracle none exUri "example.test"
      ⟨⟨203, 0, 113, 5⟩, 443⟩ [.dnsLookup "example.test"]
      rfl rfl rfl rfl).1 rfl,
   (call_attempt_traces exOracle none exUri "example.test"
      ⟨⟨203, 0, 113, 5⟩, 443⟩ [.dnsLookup "example.test"]
      rfl rfl rfl rfl).2 exProxiedConfig
      ⟨⟨203, 0, 113, 9⟩, 8388⟩ rfl rfl⟩

/-- C7: `call` on a URI whose scheme is not HTTPS, or on a URI with no
host, fails with an `InvalidInput` error and performs no network event
(no DNS lookup, TCP connect, proxy handshake or TLS handshake). -/
theorem call_rejects_invalid_uri (sni_hostname : Option String)
    (config : InnerProxyConfig) (o : NetOracle) (uri : Uri) :
    (uri.scheme ≠ some "https" →
      call sni_hostname config o uri = ([], .error .invalidInput))
    ∧ (uri.host = none →
      call sni_hostname config o uri = ([], .error .invalidInput)) := by
  constructor
  · intro hs
    unfold call
    rw [if_pos hs]
  · intro hh
    unfold call
    by_cases hs : uri.scheme = some "https"
    · rw [if_neg (by simp [hs])]
      unfold hostnameOf
      rw [hh]
      cases sni_hostname with
      | none => rfl
      | some s => simp [resolve_address, hh]
    · rw [if_pos hs]

/-! ## Claim theorems: runtime construction -/

/-- C8: when the address-cache file of the cache directory fails to load
(absent or invalid) and a resource directory is provided, `with_cache`
loads the bundled resource-directory copy, randomizes it, and succeeds
with that cache; when no resource directory is provided, it fails with
the address-cache error. -/
theorem with_cache_fallback_chain (env : AddressCacheEnv) (api : ApiEndpoint)
    (resource_dir : Option FsPath) (cache_dir : FsPath) (write_changes : Bool)
    (e : AddressCacheError)
    (hdis : api.disable_address_cache = false)
    (hfail : env.from_file (cache_dir ++ [API_IP_CACHE_FILENAME])
      (writeFileOf write_changes (cache_dir ++ [API_IP_CACHE_FILENAME]))
      = .error e) :
    (∀ (rdir : FsPath) (cache cache2 : AddressCache),
      resource_dir = some rdir →
      env.from_file (rdir ++ [API_IP_CACHE_FILENAME])
        (writeFileOf write_changes (cache_dir ++ [API_IP_CACHE_FILENAME]))
        = .ok cache →
      env.randomize cache = .ok cache2 →
      with_cache env api resource_dir cache_dir write_changes = .ok ⟨cache2⟩)
    ∧ (resource_dir = none →
      with_cache env api resource_dir cache_dir write_changes
        = .error (.AddressCacheError e)) := by
  constructor
  · intro rdir cache cache2 hrdir hload hrand
    subst hrdir
    simp [with_cache, hdis, hfail, hload, hrand]
  · intro hrdir
    subst hrdir
    simp [with_cache, hdis, hfail]

/-- Witness for C8: with the resource directory present construction
succeeds with the randomized bundled cache; with no resource directory
it fails with the original address-cache error. -/
theorem with_cache_fallback_chain_witness :
    with_cache exCacheEnv exApiEndpoint (some ["res"]) ["cache"] true
      = .ok ⟨⟨101⟩⟩
    ∧ with_cache exCacheEnv exApiEndpoint none ["cache"] true
      = .error (.AddressCacheError ⟨7⟩) :=
  ⟨(with_cache_fallback_chain exCacheEnv exApiEndpoint (some ["res"])
      ["cache"] true ⟨7⟩ rfl rfl).1 ["res"] ⟨1⟩ ⟨101⟩ rfl rfl rfl,
   (with_cache_fallback_chain exCacheEnv exApiEndpoint none
      ["cache"] true ⟨7⟩ rfl rfl).2 rfl⟩

/-- Witness for C7: a plain-HTTP URI and a host-less HTTPS URI are both
rejected with `InvalidInput` and an empty network-event trace. -/
theorem call_rejects_invalid_uri_witness :
    call none .Direct exOracle ⟨some "http", some "example.test", none⟩
      = ([], .error .invalidInput)
    ∧ call none .Direct exOracle ⟨some "https", none, none⟩
      = ([], .error .invalidInput) :=
  ⟨(call_rejects_invalid_uri none .Direct exOracle
      ⟨some "http", some "example.test", none⟩).1 (by decide),
   (call_rejects_invalid_uri none .Direct exOracle
      ⟨some "https", none, none⟩).2 rfl⟩
